import Mathlib

/-!
Verification of the asynchronous task orchestration core of docling-serve.

The definitions below are a shallow embedding of the Python sources:
`docling_serve/orchestrator_factory.py` (the `RedisTaskStatusMixin`),
`docling_serve/engines/async_local/orchestrator.py`,
`docling_serve/engines/async_rq/orchestrator.py`,
`docling_serve/engines/async_kfp/orchestrator.py`,
`docling_serve/grpc/server.py`, `docling_serve/grpc/mapping.py` and
`docling_serve/response_preparation.py`.

Python dictionaries keyed by strings are embedded as functions
`String → Option α`; external effects (the RQ queue, the Redis server, the
parent orchestrator class from `docling_jobkit`) are embedded as explicit
oracle parameters describing the single observable interaction the code
performs with them.
-/

namespace DoclingServe

/-- Pointwise update of a string-keyed map (a Python `dict` assignment or
`del`/`pop`, depending on `v`). -/
def setKey {α : Type} (m : String → Option α) (k : String) (v : Option α) :
    String → Option α :=
  fun x => if x = k then v else m x

@[simp] theorem setKey_same {α : Type} (m : String → Option α) (k : String) (v : Option α) :
    setKey m k v k = v := by simp [setKey]

@[simp] theorem setKey_other {α : Type} (m : String → Option α) (k x : String) (v : Option α)
    (h : x ≠ k) : setKey m k v x = m x := by simp [setKey, h]

/-! ## Task data model

`docling_jobkit.datamodel.task_meta.TaskStatus` and
`docling_jobkit.datamodel.task.Task`, modelled on the fields used by the
code under `docling_serve/` (the jobkit package itself ships outside this
repository; the field set follows spec §3 and the repository's own tests
in `tests/test_zombie_task_cleanup.py`). -/

inductive TaskStatus : Type
  | pending
  | started
  | success
  | failure
deriving DecidableEq, Repr

/-- The string value of the `str`-mixin enum member (`TaskStatus.PENDING.value`
and so on). -/
def TaskStatus.value : TaskStatus → String
  | .pending => "pending"
  | .started => "started"
  | .success => "success"
  | .failure => "failure"

/-- The enum constructor `TaskStatus(raw)`: `some` on a valid value string,
`none` when the constructor would raise `ValueError`. -/
def TaskStatus.ofValue : String → Option TaskStatus
  | "pending" => some .pending
  | "started" => some .started
  | "success" => some .success
  | "failure" => some .failure
  | _ => none

/-- How the f-string `f"{task.task_status}"` renders a `str`-mixin enum member
under CPython ≥ 3.11 (class-qualified member name). -/
def TaskStatus.fstr : TaskStatus → String
  | .pending => "TaskStatus.PENDING"
  | .started => "TaskStatus.STARTED"
  | .success => "TaskStatus.SUCCESS"
  | .failure => "TaskStatus.FAILURE"

theorem TaskStatus.ofValue_value (s : TaskStatus) : TaskStatus.ofValue s.value = some s := by
  cases s <;> rfl

/-- `processing_meta` counters of the jobkit task (spec §3, test fixtures use
the keys `num_docs`, `num_processed`, `num_succeeded`, `num_failed`). -/
structure TaskProcessingMeta where
  num_docs : Int
  num_processed : Int
  num_succeeded : Int
  num_failed : Int
deriving DecidableEq, Repr

/-- The jobkit `Task`, restricted to the fields the embedded code reads and
writes (the five fields persisted by `_store_task_in_redis`). -/
structure Task where
  task_id : String
  task_type : String
  task_status : TaskStatus
  processing_meta : TaskProcessingMeta
  error_message : Option String := none
deriving DecidableEq, Repr

/-- `Task.is_completed` from the jobkit data model: terminal statuses are
`success` and `failure`. -/
def Task.is_completed (t : Task) : Bool :=
  t.task_status = TaskStatus.success ∨ t.task_status = TaskStatus.failure

/-- `Task.set_status`: plain status assignment (confirmed by the repository's
tests, which observe `task_status == FAILURE` right after the call). -/
def Task.set_status (t : Task) (s : TaskStatus) : Task :=
  { t with task_status := s }

/-! ## Redis-backed durable projection

`RedisTaskStatusMixin._store_task_in_redis` serializes the task into a JSON
object; `_get_task_from_redis` decodes it.  `json.dumps`/`json.loads`
round-trip faithfully on this flat object, so the stored payload is embedded
structurally as `TaskData`. -/

/-- The JSON payload written under `{redis_prefix}{task_id}:metadata`. -/
structure TaskData where
  task_id : String
  task_type : String
  task_status : String
  processing_meta : TaskProcessingMeta
  error_message : Option String
deriving DecidableEq, Repr

/-- `self.redis_prefix`, set in `RedisTaskStatusMixin.__init__`. -/
def redisKeyRoot : String := "docling:tasks:"

/-- The Redis key of the durable projection of task `task_id`. -/
def metadataKey (task_id : String) : String :=
  redisKeyRoot ++ task_id ++ ":metadata"

/-- The Redis key of the stored result-key pointer of task `task_id`. -/
def resultKeyKey (task_id : String) : String :=
  redisKeyRoot ++ task_id ++ ":result_key"

/-- State owned by the `RedisTaskStatusMixin` instance together with its view
of the Redis keyspace: `self.tasks`, `self._task_result_keys`, and the two
families of Redis keys the mixin touches (values paired with the TTL passed
to `SET ... EX`). -/
structure MixinState where
  tasks : String → Option Task
  task_result_keys : String → Option String
  redis_meta : String → Option (TaskData × Nat)
  redis_result_keys : String → Option (String × Nat)

/-- `_store_task_in_redis(task)`: serialize the five persisted fields and
write them under the metadata key with `ex = eng_rq_results_ttl`.
`task.processing_meta.model_dump()` is the structural copy of the counters;
`getattr(task, "error_message", None)` is `task.error_message`. -/
def _store_task_in_redis (st : MixinState) (task : Task) (results_ttl : Nat) : MixinState :=
  let data : TaskData :=
    { task_id := task.task_id
      task_type := task.task_type
      task_status := task.task_status.value
      processing_meta := task.processing_meta
      error_message := task.error_message }
  { st with redis_meta := setKey st.redis_meta (metadataKey task.task_id) (some (data, results_ttl)) }

/-- `_get_task_from_redis(task_id)`: read the metadata key and rebuild a
`Task`.  `read_error` models a transient Redis exception (connection loss),
which the `except` clause turns into `None`.  A missing key returns `None`;
an invalid status string makes `TaskStatus(...)` raise, also caught into
`None`.  `data.get("error_message")` is a truthiness test, so an empty-string
message is dropped. -/
def _get_task_from_redis (st : MixinState) (read_error : Bool) (task_id : String) :
    Option Task :=
  if read_error then none
  else
    match st.redis_meta (metadataKey task_id) with
    | none => none
    | some (data, _) =>
      match TaskStatus.ofValue data.task_status with
      | none => none
      | some s =>
        some { task_id := data.task_id
               task_type := data.task_type
               task_status := s
               processing_meta := data.processing_meta
               error_message :=
                 match data.error_message with
                 | some m => if m = "" then none else some m
                 | none => none }

/-! ## The direct RQ probe

`_get_task_from_rq_direct` queries the RQ job by temporarily installing a
placeholder task and delegating to the parent class's
`_update_task_from_rq(task_id)` (from `docling_jobkit`, outside this
repository).  That call is embedded as an oracle `RqUpdate` describing its
observable effect on `self.tasks[task_id]`.

Modelled from the spec: §4.5 states that a queue hit is adopted by a
write-through to the cache, i.e. the parent writes the adopted `Task` value
into `self.tasks[task_id]` (`RqUpdate.write`); the repository's own
`FakeParentOrchestrator` in `tests/test_zombie_task_cleanup.py` models the
parent the same way (`mixin.tasks[task_id] = expected_task`).  A job that no
longer exists raises `NoSuchJobError` (`RqUpdate.noSuchJob`), any other
error raises a generic exception (`RqUpdate.failure`), and the parent may
also leave the entry untouched (`RqUpdate.noop`). -/

inductive RqUpdate : Type
  | noSuchJob
  | failure
  | write (t : Task)
  | noop
deriving DecidableEq, Repr

/-- The `Union[Task, _RQJobGone, None]` result of `_get_task_from_rq_direct`:
a task adopted from RQ, the `_RQ_JOB_GONE` sentinel, or `None` on a
transient error (or a still-pending placeholder). -/
inductive RqProbe : Type
  | task (t : Task)
  | gone
  | noResult
deriving DecidableEq, Repr

/-- The placeholder installed while the parent update runs (`temp_task` in
`_get_task_from_rq_direct`). -/
def tempTask (task_id : String) : Task :=
  { task_id := task_id
    task_type := "convert"
    task_status := TaskStatus.pending
    processing_meta := { num_docs := 0, num_processed := 0, num_succeeded := 0, num_failed := 0 }
    error_message := none }

/-- The `finally` block of `_get_task_from_rq_direct`: restore the original
entry if one existed, otherwise delete the entry when it still (structurally,
as pydantic `==` compares fields) equals the placeholder. -/
def restoreEntry (tasks : String → Option Task) (task_id : String)
    (original : Option Task) : String → Option Task :=
  match original with
  | some t => setKey tasks task_id (some t)
  | none =>
    match tasks task_id with
    | some cur => if cur = tempTask task_id then setKey tasks task_id none else tasks
    | none => tasks

/-- `_get_task_from_rq_direct(task_id)`.  Terminal cached tasks short-circuit
without consulting RQ; otherwise the placeholder is swapped in, the parent
update runs (oracle `upd`), a freshly adopted non-pending task is returned
(storing the known result key under its Redis key with `ex = results_ttl`),
and the `finally` block restores the map entry.  `NoSuchJobError` yields the
gone sentinel, other exceptions yield `None`. -/
def _get_task_from_rq_direct (st : MixinState) (upd : RqUpdate) (results_ttl : Nat)
    (task_id : String) : RqProbe × MixinState :=
  match st.tasks task_id with
  | some original₀ =>
    if original₀.is_completed then (.task original₀, st)
    else _rq_direct_core st upd results_ttl task_id
  | none => _rq_direct_core st upd results_ttl task_id
where
  /-- The body below the terminal-status guard. -/
  _rq_direct_core (st : MixinState) (upd : RqUpdate) (results_ttl : Nat)
      (task_id : String) : RqProbe × MixinState :=
    let original := st.tasks task_id
    let tasks₁ := setKey st.tasks task_id (some (tempTask task_id))
    match upd with
    | .noSuchJob =>
      (.gone, { st with tasks := restoreEntry tasks₁ task_id original })
    | .failure =>
      (.noResult, { st with tasks := restoreEntry tasks₁ task_id original })
    | .write t =>
      let tasks₂ := setKey tasks₁ task_id (some t)
      if t.task_status ≠ TaskStatus.pending then
        let st₂ :=
          match st.task_result_keys task_id with
          | some rk =>
            { st with
              tasks := restoreEntry tasks₂ task_id original
              redis_result_keys :=
                setKey st.redis_result_keys (resultKeyKey task_id) (some (rk, results_ttl)) }
          | none => { st with tasks := restoreEntry tasks₂ task_id original }
        (.task t, st₂)
      else
        (.noResult, { st with tasks := restoreEntry tasks₂ task_id original })
    | .noop =>
      (.noResult, { st with tasks := restoreEntry tasks₁ task_id original })

/-! ## The reconciling status query -/

/-- The error raised by the orchestrator interface; `task_status` only ever
raises `TaskNotFoundError` to its callers. -/
inductive OrchError : Type
  | taskNotFound
deriving DecidableEq, Repr

/-- The zombie-reconciliation message built in `task_status` after
`set_status(FAILURE)` has already run; `{task.task_status}` therefore renders
the new failure status. -/
def orphanMessage (currentStatus : TaskStatus) : String :=
  "Task orphaned: RQ job expired while status was " ++ currentStatus.fstr ++
    ". Likely caused by worker restart or Redis eviction."

/-- External-world oracle for one `task_status` call: the effect of the first
and (if reached) second parent RQ update, whether the Redis metadata read
raises transiently, and the answer of `super().task_status` (`none` meaning
it raises `TaskNotFoundError`). -/
structure Env where
  rqUpdate1 : RqUpdate
  rqUpdate2 : RqUpdate
  redisReadError : Bool
  parentStatus : Option Task
deriving Repr

/-- `RedisTaskStatusMixin.task_status(task_id)`: query RQ first, then the
durable Redis projection, then the parent (in-memory) lookup, reconciling a
definitively-gone RQ job against the projection. -/
def task_status (st : MixinState) (env : Env) (results_ttl : Nat) (task_id : String) :
    Except OrchError Task × MixinState :=
  let probe := _get_task_from_rq_direct st env.rqUpdate1 results_ttl task_id
  let st₁ := probe.2
  match probe.1 with
  | .task rq_result =>
    let st₂ := { st₁ with tasks := setKey st₁.tasks task_id (some rq_result) }
    (.ok rq_result, _store_task_in_redis st₂ rq_result results_ttl)
  | .gone => task_status_afterRq st₁ env results_ttl task_id true
  | .noResult => task_status_afterRq st₁ env results_ttl task_id false
where
  /-- Steps 2 and 3 of the reconciliation, with `job_is_gone` recording
  whether RQ reported the job definitively gone. -/
  task_status_afterRq (st₁ : MixinState) (env : Env) (results_ttl : Nat)
      (task_id : String) (job_is_gone : Bool) : Except OrchError Task × MixinState :=
    match _get_task_from_redis st₁ env.redisReadError task_id with
    | some task =>
      if job_is_gone then
        if task.is_completed then
          (.ok task,
           { st₁ with
             tasks := setKey st₁.tasks task_id none
             task_result_keys := setKey st₁.task_result_keys task_id none })
        else
          let task := task.set_status TaskStatus.failure
          let task := { task with error_message := some (orphanMessage task.task_status) }
          let st₂ :=
            { st₁ with
              tasks := setKey st₁.tasks task_id none
              task_result_keys := setKey st₁.task_result_keys task_id none }
          (.ok task, _store_task_in_redis st₂ task results_ttl)
      else
        if task.task_status = TaskStatus.pending ∨ task.task_status = TaskStatus.started then
          let fresh := _get_task_from_rq_direct st₁ env.rqUpdate2 results_ttl task_id
          let st₂ := fresh.2
          match fresh.1 with
          | .task fresh_rq_task =>
            if fresh_rq_task.task_status ≠ task.task_status then
              let st₃ := { st₂ with tasks := setKey st₂.tasks task_id (some fresh_rq_task) }
              (.ok fresh_rq_task, _store_task_in_redis st₃ fresh_rq_task results_ttl)
            else (.ok task, st₂)
          | _ => (.ok task, st₂)
        else (.ok task, st₁)
    | none =>
      if job_is_gone then
        (.error .taskNotFound, { st₁ with tasks := setKey st₁.tasks task_id none })
      else
        match env.parentStatus with
        | some parent_task => (.ok parent_task, _store_task_in_redis st₁ parent_task results_ttl)
        | none => (.error .taskNotFound, st₁)

/-! ## Engine-side data model

`docling_serve/datamodel/engines.py` and `docling_serve/datamodel/task.py`
define their own `Task` and `TaskProcessingMeta` used by the
`AsyncLocalOrchestrator`, `AsyncRQOrchestrator` and `AsyncKfpOrchestrator`
(note the counter name `num_success`, unlike the jobkit `num_succeeded`).
The stored result (`Optional[ConvertDocumentResponse]`) is opaque to the
orchestrator and embedded as an opaque string. -/

namespace EngineDM

structure TaskProcessingMeta where
  num_docs : Int
  num_processed : Int := 0
  num_success : Int := 0
  num_failed : Int := 0
deriving DecidableEq, Repr

structure Task where
  task_id : String
  task_status : TaskStatus := TaskStatus.pending
  result : Option String := none
  processing_meta : Option TaskProcessingMeta := none
deriving DecidableEq, Repr

def Task.is_completed (t : Task) : Bool :=
  t.task_status = TaskStatus.success ∨ t.task_status = TaskStatus.failure

end EngineDM

/-! ## AsyncLocalOrchestrator (engines/async_local/orchestrator.py) -/

/-- The mutable state of `AsyncLocalOrchestrator`: `self.tasks` and
`self.queue_list` (the ids still waiting in the pending queue). -/
structure LocalState where
  tasks : String → Option EngineDM.Task
  queue_list : List String

/-- `AsyncLocalOrchestrator.get_queue_position`: 1-based index in
`queue_list` when present, `None` otherwise. -/
def local_get_queue_position (st : LocalState) (task_id : String) : Option Nat :=
  if task_id ∈ st.queue_list then
    some ((st.queue_list.indexOf task_id) + 1)
  else none

/-- `AsyncLocalOrchestrator.task_status`: raises `TaskNotFoundError` when the
id is not in `self.tasks`. -/
def local_task_status (st : LocalState) (task_id : String) :
    Except OrchError EngineDM.Task :=
  match st.tasks task_id with
  | none => .error .taskNotFound
  | some t => .ok t

/-- `AsyncLocalOrchestrator.task_result`: raises `TaskNotFoundError` when the
id is not in `self.tasks`; otherwise returns the (possibly `None`) stored
result. -/
def local_task_result (st : LocalState) (task_id : String) :
    Except OrchError (Option String) :=
  match st.tasks task_id with
  | none => .error .taskNotFound
  | some t => .ok t.result

/-! ## AsyncRQOrchestrator (engines/async_rq/orchestrator.py) -/

/-- The RQ `JobStatus` values distinguished by `get_queue_position`. -/
inductive JobStatus : Type
  | queued
  | scheduled
  | started
  | finished
  | other
deriving DecidableEq, Repr

/-- The slice of an RQ job record read by `get_queue_position`:
`job.get_status()`, `job.get_position()` (0-based, `None` when the job is no
longer in the queue) and `job.return_value()`. -/
structure RqJob where
  status : JobStatus
  position : Option Nat
  return_value : Option String := none
deriving DecidableEq, Repr

/-- `AsyncRQOrchestrator.get_queue_position`: fetch the job (an unknown id
raises and is caught into `None`), mirror the job status into `self.tasks`
(a missing task entry raises `KeyError`, also caught into `None`), and
return `queue_pos + 1` when RQ reports a position — but `0`, not `None`,
when it does not. -/
def rq_get_queue_position (jobs : String → Option RqJob)
    (tasks : String → Option EngineDM.Task) (task_id : String) :
    Option Nat × (String → Option EngineDM.Task) :=
  match jobs task_id with
  | none => (none, tasks)
  | some job =>
    match tasks task_id with
    | none => (none, tasks)
    | some task =>
      let task' :=
        if job.status = JobStatus.finished then
          { task with task_status := TaskStatus.success, result := job.return_value }
        else if job.status = JobStatus.queued ∨ job.status = JobStatus.scheduled then
          { task with task_status := TaskStatus.pending }
        else if job.status = JobStatus.started then
          { task with task_status := TaskStatus.started }
        else
          { task with task_status := TaskStatus.failure }
      let tasks' := setKey tasks task_id (some task')
      (match job.position with
       | some p => some (p + 1)
       | none => some 0, tasks')

/-! ## AsyncKfpOrchestrator (engines/async_kfp/orchestrator.py) -/

/-- `AsyncKfpOrchestrator.get_queue_position`: enumerate the pending runs
reported by the KFP client (`_get_pending`, embedded as the list of pending
run ids in order) starting at 1 and return the matching position, else
`None`. -/
def kfp_get_queue_position (pending_runs : List String) (task_id : String) : Option Nat :=
  kfp_position_loop task_id 1 pending_runs
where
  /-- The `for pos, run in enumerate(runs, start=1)` search. -/
  kfp_position_loop (task_id : String) : Nat → List String → Option Nat
    | _, [] => none
    | pos, run :: rest =>
      if run = task_id then some pos else kfp_position_loop task_id (pos + 1) rest

/-- A progress callback payload (`datamodel/callback.py`): either
`ProgressSetNumDocs` or `ProgressUpdateProcessed` with unconstrained integer
increments. -/
inductive Progress : Type
  | setNumDocs (num_docs : Int)
  | updateProcessed (num_processed num_success num_failed : Int)
deriving DecidableEq, Repr

/-- `ProgressInvalid` raised when an update arrives before the expected
number of documents was set. -/
inductive ProgressError : Type
  | progressInvalid
deriving DecidableEq, Repr

/-- The task mutation performed by `AsyncKfpOrchestrator.receive_task_progress`
(the surrounding `get_raw_task` fetch and subscriber notification are
orthogonal to the counters). -/
def receive_task_progress (task : EngineDM.Task) (progress : Progress) :
    Except ProgressError EngineDM.Task :=
  match progress with
  | .setNumDocs n =>
    .ok { task with processing_meta := some { num_docs := n } }
  | .updateProcessed np ns nf =>
    match task.processing_meta with
    | none => .error .progressInvalid
    | some meta =>
      .ok { task with
            processing_meta := some
              { meta with
                num_processed := meta.num_processed + np
                num_success := meta.num_success + ns
                num_failed := meta.num_failed + nf } }

/-- Spec §3 invariant 6 on the engine-side counters:
`num_processed == num_succeeded + num_failed`. -/
def metaInvariant (meta : EngineDM.TaskProcessingMeta) : Prop :=
  meta.num_processed = meta.num_success + meta.num_failed

instance (meta : EngineDM.TaskProcessingMeta) : Decidable (metaInvariant meta) := by
  unfold metaInvariant; infer_instance

/-! ## Synchronous wait loop (grpc/server.py) -/

/-- `DoclingServeGrpcService._wait_task_complete`, embedded over a poll trace:
`completed n` is the `task.is_completed()` answer of the `n`-th poll and
`elapsed n` the elapsed wall time measured after the `n`-th sleep.  The
Python loop is unbounded, so the embedding carries fuel and returns `none`
when it is exhausted; `some true` is normal completion and `some false` the
timeout that the caller maps to gRPC `DEADLINE_EXCEEDED`.  The timeout guard
is `if max_sync_wait and (elapsed > max_sync_wait)`: a falsy (zero) bound
never times out and the comparison is strict. -/
def wait_task_complete (completed : Nat → Bool) (elapsed : Nat → ℚ)
    (max_sync_wait : ℚ) : Nat → Nat → Option Bool
  | _, 0 => none
  | n, fuel + 1 =>
    if completed n then some true
    else if max_sync_wait ≠ 0 ∧ elapsed n > max_sync_wait then some false
    else wait_task_complete completed elapsed max_sync_wait (n + 1) fuel

/-! ## Single-use result cleanup -/

/-- The configuration fields consulted by the cleanup helpers.  Modelled from
the spec: the settings model (`docling_serve_settings`) is not part of the
sources under `src/`; fields follow spec §6 (`single_use_results`,
`result_removal_delay`). -/
structure CleanupSettings where
  single_use_results : Bool
  result_removal_delay : ℚ
deriving DecidableEq, Repr

/-- A deletion scheduled to fire `delay` seconds in the future
(`asyncio.sleep(delay)` then `orchestrator.delete_task(task_id)`). -/
structure ScheduledDeletion where
  delay : ℚ
  task_id : String
deriving DecidableEq, Repr

/-- `with_single_use_cleanup(orchestrator, task_id)` from `grpc/mapping.py`:
no-op unless `single_use_results` is set, otherwise schedule
`delete_task(task_id)` after `result_removal_delay` seconds. -/
def with_single_use_cleanup (settings : CleanupSettings) (task_id : String) :
    Option ScheduledDeletion :=
  if ¬ settings.single_use_results then none
  else some { delay := settings.result_removal_delay, task_id := task_id }

/-- The single-use tail of `prepare_response` in `response_preparation.py`:
the same guarded schedule of `delete_task(task_id)` after
`result_removal_delay` seconds (registered through `background_tasks`). -/
def prepare_response_cleanup (settings : CleanupSettings) (task_id : String) :
    Option ScheduledDeletion :=
  if settings.single_use_results then
    some { delay := settings.result_removal_delay, task_id := task_id }
  else none

/-- Modelled from the spec: `delete_task` lives in the jobkit base
orchestrator, outside `src/`.  Per §4.2 and §4.6 it is an idempotent
eviction removing the in-memory record, the in-memory result-key tracking,
the durable projection and the stored result key (together with the
queue-side job record, so a later RQ probe raises `NoSuchJobError`). -/
def delete_task (st : MixinState) (task_id : String) : MixinState :=
  { tasks := setKey st.tasks task_id none
    task_result_keys := setKey st.task_result_keys task_id none
    redis_meta := setKey st.redis_meta (metadataKey task_id) none
    redis_result_keys := setKey st.redis_result_keys (resultKeyKey task_id) none }

/-- Firing a scheduled deletion once `now` seconds have elapsed since it was
scheduled. -/
def run_scheduled (st : MixinState) (sched : Option ScheduledDeletion) (now : ℚ) :
    MixinState :=
  match sched with
  | some s => if s.delay ≤ now then delete_task st s.task_id else st
  | none => st

/-! ## Concrete states used by witnesses and counterexamples -/

/-- A mixin state with no tasks, no tracked result keys and an empty Redis
keyspace. -/
def emptyMixin : MixinState :=
  { tasks := fun _ => none
    task_result_keys := fun _ => none
    redis_meta := fun _ => none
    redis_result_keys := fun _ => none }

/-- A local orchestrator with no tasks and an empty queue. -/
def emptyLocal : LocalState :=
  { tasks := fun _ => none, queue_list := [] }

/-- Zeroed jobkit counters. -/
def zeroMeta : TaskProcessingMeta :=
  { num_docs := 0, num_processed := 0, num_succeeded := 0, num_failed := 0 }

/-! ## C5 — store/load round-trip of the durable projection -/

/-- A task carrying an empty-string error message. -/
def c5Task : Task :=
  { task_id := "t1"
    task_type := "convert"
    task_status := TaskStatus.failure
    processing_meta := zeroMeta
    error_message := some "" }

/-- C5 counterexample: storing a task whose `error_message` is the empty
string and loading it back does not return an equal task — the truthiness
test `data.get("error_message")` drops the empty string, so the loaded task
has `error_message = None`.  The claimed round-trip law fails at this task. -/
theorem C5_counterexample :
    _get_task_from_redis (_store_task_in_redis emptyMixin c5Task 14400) false "t1" =
      some { c5Task with error_message := none } ∧
    ({ c5Task with error_message := none } : Task) ≠ c5Task := by
  constructor
  · rfl
  · decide

/-- C5 (amended): for every task whose `error_message` is not the empty
string, `_store_task_in_redis` followed by `_get_task_from_redis` returns a
task equal on all persisted fields (`task_id`, `task_type`, `task_status`,
`processing_meta`, `error_message`), and the record is stored under the key
`{prefix}{task_id}:metadata` with TTL equal to the configured results TTL. -/
theorem C5_store_load_roundtrip (st : MixinState) (t : Task) (ttl : Nat)
    (h : t.error_message ≠ some "") :
    _get_task_from_redis (_store_task_in_redis st t ttl) false t.task_id = some t ∧
    (_store_task_in_redis st t ttl).redis_meta (metadataKey t.task_id) =
      some ({ task_id := t.task_id
              task_type := t.task_type
              task_status := t.task_status.value
              processing_meta := t.processing_meta
              error_message := t.error_message }, ttl) := by
  obtain ⟨tid, tty, ts, tpm, tem⟩ := t
  refine ⟨?_, by simp [_store_task_in_redis]⟩
  simp only [_get_task_from_redis, _store_task_in_redis, setKey_same, Bool.false_eq_true,
    if_false, TaskStatus.ofValue_value]
  cases tem with
  | none => rfl
  | some m =>
    have hm : ¬ (m = "") := by
      intro hm
      exact h (by simp [hm])
    simp [hm]

/-- C5 witness: the amended round-trip evaluated at a concrete task with a
non-empty error message. -/
theorem C5_store_load_roundtrip_witness :
    ({ task_id := "w5", task_type := "convert", task_status := TaskStatus.failure,
       processing_meta := zeroMeta, error_message := some "boom" } : Task).error_message ≠
        some "" ∧
    (_get_task_from_redis
        (_store_task_in_redis emptyMixin
          { task_id := "w5", task_type := "convert", task_status := TaskStatus.failure,
            processing_meta := zeroMeta, error_message := some "boom" } 100) false "w5" =
      some { task_id := "w5", task_type := "convert", task_status := TaskStatus.failure,
             processing_meta := zeroMeta, error_message := some "boom" } ∧
    (_store_task_in_redis emptyMixin
        { task_id := "w5", task_type := "convert", task_status := TaskStatus.failure,
          processing_meta := zeroMeta, error_message := some "boom" } 100).redis_meta
        (metadataKey "w5") =
      some ({ task_id := "w5", task_type := "convert", task_status := TaskStatus.failure.value,
              processing_meta := zeroMeta, error_message := some "boom" }, 100)) :=
  ⟨by decide,
   C5_store_load_roundtrip emptyMixin
     { task_id := "w5", task_type := "convert", task_status := TaskStatus.failure,
       processing_meta := zeroMeta, error_message := some "boom" } 100 (by decide)⟩

/-! ## C3 — TaskResult on an unknown task -/

/-- C3 counterexample: in the async-local engine, `task_result` on an id with
no known record raises `TaskNotFoundError` instead of returning `nil`. -/
theorem C3_counterexample :
    local_task_result emptyLocal "ghost" = .error .taskNotFound ∧
    (Except.error OrchError.taskNotFound : Except OrchError (Option String)) ≠
      .ok none := by
  exact ⟨rfl, fun h => by cases h⟩

/-- C3 (amended): in the async-local engine, `task_result` on an unknown
task_id fails with `TaskNotFound`, exactly as `task_status` does, rather
than returning nil; on a known task it returns the stored (possibly nil)
result. -/
theorem C3_local_task_result (st : LocalState) (task_id : String) :
    (st.tasks task_id = none →
      local_task_result st task_id = .error .taskNotFound ∧
      local_task_status st task_id = .error .taskNotFound) ∧
    (∀ t, st.tasks task_id = some t → local_task_result st task_id = .ok t.result) := by
  constructor
  · intro h
    simp [local_task_result, local_task_status, h]
  · intro t h
    simp [local_task_result, h]

/-- C3 witness: the amended statement evaluated on the empty orchestrator
and on a one-task orchestrator. -/
theorem C3_local_task_result_witness :
    (emptyLocal.tasks "ghost" = none ∧
      local_task_result emptyLocal "ghost" = .error .taskNotFound ∧
      local_task_status emptyLocal "ghost" = .error .taskNotFound) := by
  refine ⟨rfl, ?_⟩
  exact (C3_local_task_result emptyLocal "ghost").1 rfl

/-! ## C9 — progress counters invariant -/

/-- A task whose counters were initialised by `ProgressSetNumDocs(1)`. -/
def c9Task : EngineDM.Task :=
  { task_id := "t9", processing_meta := some { num_docs := 1 } }

/-- C9 counterexample: a `ProgressUpdateProcessed` whose own increments do
not satisfy `num_processed = num_success + num_failed` breaks the invariant
— the code applies the increments without validation. -/
theorem C9_counterexample :
    receive_task_progress c9Task (.updateProcessed 1 0 0) =
      .ok { c9Task with
            processing_meta := some { num_docs := 1, num_processed := 1 } } ∧
    metaInvariant { num_docs := 1 } ∧
    ¬ metaInvariant { num_docs := 1, num_processed := 1 } := by
  refine ⟨rfl, by decide, by decide⟩

/-- C9 (amended): the equality `num_processed = num_success + num_failed` is
established by `ProgressSetNumDocs` and is preserved by exactly those
`ProgressUpdateProcessed` updates whose own increments satisfy
`num_processed = num_success + num_failed`; the code does not validate the
increments, so an inconsistent update breaks the invariant. -/
theorem C9_progress_invariant (task : EngineDM.Task) :
    (∀ n, ∃ meta₀,
      receive_task_progress task (.setNumDocs n) =
        .ok { task with processing_meta := some meta₀ } ∧ metaInvariant meta₀) ∧
    (∀ meta np ns nf, task.processing_meta = some meta → metaInvariant meta →
      np = ns + nf →
      ∃ metaNew,
        receive_task_progress task (.updateProcessed np ns nf) =
          .ok { task with processing_meta := some metaNew } ∧ metaInvariant metaNew) := by
  constructor
  · intro n
    exact ⟨{ num_docs := n }, rfl, by simp [metaInvariant]⟩
  · intro meta np ns nf hmeta hinv hdelta
    refine ⟨{ num_docs := meta.num_docs, num_processed := meta.num_processed + np,
              num_success := meta.num_success + ns, num_failed := meta.num_failed + nf },
           ?_, ?_⟩
    · simp [receive_task_progress, hmeta]
    · unfold metaInvariant at hinv ⊢
      dsimp
      omega

/-- C9 witness: the amended preservation applied to a concrete consistent
update. -/
theorem C9_progress_invariant_witness :
    c9Task.processing_meta = some { num_docs := 1 } ∧
    metaInvariant { num_docs := 1 } ∧ (2 : Int) = 1 + 1 ∧
    ∃ metaNew,
      receive_task_progress c9Task (.updateProcessed 2 1 1) =
        .ok { c9Task with processing_meta := some metaNew } ∧ metaInvariant metaNew :=
  ⟨rfl, by decide, by norm_num,
   (C9_progress_invariant c9Task).2 { num_docs := 1 } 2 1 1 rfl (by decide) (by norm_num)⟩

/-! ## C6 — queue position across the engine backends -/

/-- An RQ backend view holding one started job with no queue rank. -/
def c6Jobs : String → Option RqJob :=
  fun k => if k = "t6" then some { status := JobStatus.started, position := none } else none

/-- The matching in-memory task map of the RQ orchestrator. -/
def c6Tasks : String → Option EngineDM.Task :=
  fun k => if k = "t6" then some { task_id := "t6", task_status := TaskStatus.started } else none

/-- C6 counterexample: the RQ backend returns `0`, not `nil`, for a known
task that is no longer pending (`queue_pos + 1 if queue_pos is not None
else 0`). -/
theorem C6_counterexample :
    (rq_get_queue_position c6Jobs c6Tasks "t6").1 = some 0 ∧
    (some 0 : Option Nat) ≠ none := by
  exact ⟨rfl, by simp⟩

theorem kfp_position_loop_none_iff (task_id : String) (runs : List String) :
    ∀ pos, kfp_get_queue_position.kfp_position_loop task_id pos runs = none ↔
      task_id ∉ runs := by
  induction runs with
  | nil => intro pos; simp [kfp_get_queue_position.kfp_position_loop]
  | cons run rest ih =>
    intro pos
    by_cases h : run = task_id
    · simp [kfp_get_queue_position.kfp_position_loop, h]
    · simp only [kfp_get_queue_position.kfp_position_loop, h, if_false, ih (pos + 1),
        List.mem_cons]
      constructor
      · intro hn hmem
        rcases hmem with hmem | hmem
        · exact h hmem.symm
        · exact hn hmem
      · intro hn hmem
        exact hn (Or.inr hmem)

theorem kfp_position_loop_mem (task_id : String) (runs : List String) :
    ∀ pos, task_id ∈ runs →
      kfp_get_queue_position.kfp_position_loop task_id pos runs =
        some (pos + runs.indexOf task_id) := by
  induction runs with
  | nil => intro pos h; cases h
  | cons run rest ih =>
    intro pos h
    by_cases hr : run = task_id
    · subst hr
      simp [kfp_get_queue_position.kfp_position_loop, List.indexOf_cons_self]
    · have hmem : task_id ∈ rest := by
        rcases List.mem_cons.mp h with h1 | h1
        · exact absurd h1.symm hr
        · exact h1
      rw [kfp_get_queue_position.kfp_position_loop, if_neg hr, ih (pos + 1) hmem,
        List.indexOf_cons_ne rest hr]
      congr 1
      omega

/-- C6 (amended): `QueuePosition` returns the 1-based position among pending
tasks when the task is pending, and `nil` for a non-pending or unknown task
in the local and KFP backends; the RQ backend, however, returns `0` (not
`nil`) for a known task without a queue rank, and `nil` only when the job
fetch or the task lookup raises. -/
theorem C6_queue_position_backends :
    (∀ (st : LocalState) (task_id : String),
      (local_get_queue_position st task_id = none ↔ task_id ∉ st.queue_list) ∧
      (task_id ∈ st.queue_list →
        local_get_queue_position st task_id = some (st.queue_list.indexOf task_id + 1))) ∧
    (∀ (jobs : String → Option RqJob) (tasks : String → Option EngineDM.Task)
        (task_id : String),
      (∀ job task, jobs task_id = some job → tasks task_id = some task →
        (rq_get_queue_position jobs tasks task_id).1 =
          some (match job.position with | some p => p + 1 | none => 0)) ∧
      (jobs task_id = none → (rq_get_queue_position jobs tasks task_id).1 = none)) ∧
    (∀ (pending_runs : List String) (task_id : String),
      (kfp_get_queue_position pending_runs task_id = none ↔ task_id ∉ pending_runs) ∧
      (task_id ∈ pending_runs →
        kfp_get_queue_position pending_runs task_id =
          some (pending_runs.indexOf task_id + 1))) := by
  refine ⟨?_, ?_, ?_⟩
  · intro st task_id
    constructor
    · by_cases h : task_id ∈ st.queue_list <;> simp [local_get_queue_position, h]
    · intro h
      simp [local_get_queue_position, h]
  · intro jobs tasks task_id
    constructor
    · intro job task hj ht
      simp only [rq_get_queue_position, hj, ht]
      cases job.position <;> rfl
    · intro hj
      simp [rq_get_queue_position, hj]
  · intro pending_runs task_id
    refine ⟨kfp_position_loop_none_iff task_id pending_runs 1, ?_⟩
    intro h
    rw [kfp_get_queue_position, kfp_position_loop_mem task_id pending_runs 1 h]
    congr 1
    omega

/-- C6 witness: the amended statement evaluated on concrete backends — the
started RQ job of the counterexample state, a local pending task at rank 2,
a KFP pending run at rank 2, and a KFP miss. -/
theorem C6_queue_position_backends_witness :
    c6Jobs "t6" = some { status := JobStatus.started, position := none } ∧
    c6Tasks "t6" = some { task_id := "t6", task_status := TaskStatus.started } ∧
    (rq_get_queue_position c6Jobs c6Tasks "t6").1 = some 0 ∧
    (local_get_queue_position { tasks := fun _ => none, queue_list := ["a", "b"] } "b" =
      some 2) ∧
    kfp_get_queue_position ["a", "b"] "b" = some 2 ∧
    (kfp_get_queue_position ["a", "b"] "zz" = none ↔ "zz" ∉ ["a", "b"]) := by
  refine ⟨rfl, rfl, ?_, ?_, ?_, ?_⟩
  · exact (C6_queue_position_backends.2.1 c6Jobs c6Tasks "t6").1
      { status := JobStatus.started, position := none }
      { task_id := "t6", task_status := TaskStatus.started } rfl rfl
  · have h := ((C6_queue_position_backends.1
      { tasks := fun _ => none, queue_list := ["a", "b"] } "b").2) (by decide)
    simpa using h
  · have h := (C6_queue_position_backends.2.2 ["a", "b"] "b").2 (by decide)
    simpa using h
  · exact (C6_queue_position_backends.2.2 ["a", "b"] "zz").1

/-! ## C7 — synchronous wait bound is strict -/

/-- C7 counterexample: with `max_sync_wait = 10`, a poll at which the elapsed
wait equals exactly 10 does not time out — the strict comparison
`elapsed > max_sync_wait` fails, the loop polls again, and the task
completing on the next poll yields a success, not a `Timeout`. -/
theorem C7_counterexample :
    wait_task_complete (fun n => decide (1 ≤ n)) (fun _ => (10 : ℚ)) 10 0 5 = some true ∧
    (some true : Option Bool) ≠ some false := by
  constructor
  · simp [wait_task_complete]
  · simp

/-- C7 (amended): the synchronous wait loop returns `Timeout` (mapped to gRPC
`DEADLINE_EXCEEDED`) only when, at some poll of the trace, the task is not
complete and the elapsed wait strictly exceeds a nonzero `max_sync_wait`; an
elapsed wait exactly equal to `max_sync_wait` never triggers the timeout. -/
theorem C7_timeout_requires_strict_exceedance (completed : Nat → Bool)
    (elapsed : Nat → ℚ) (max_sync_wait : ℚ) (n fuel : Nat)
    (h : wait_task_complete completed elapsed max_sync_wait n fuel = some false) :
    ∃ m, n ≤ m ∧ completed m = false ∧ max_sync_wait ≠ 0 ∧
      elapsed m > max_sync_wait := by
  induction fuel generalizing n with
  | zero => simp [wait_task_complete] at h
  | succ fuel ih =>
    rw [wait_task_complete] at h
    by_cases hc : completed n
    · simp [hc] at h
    · by_cases ht : max_sync_wait ≠ 0 ∧ elapsed n > max_sync_wait
      · exact ⟨n, le_refl n, by simpa using hc, ht.1, ht.2⟩
      · simp only [hc, if_false, ht, Bool.false_eq_true] at h
        obtain ⟨m, hm, hrest⟩ := ih (n + 1) h
        exact ⟨m, by omega, hrest⟩

/-- C7 witness: a trace that does time out, with the strict exceedance the
theorem extracts from it. -/
theorem C7_timeout_witness :
    wait_task_complete (fun _ => false) (fun _ => (20 : ℚ)) 10 0 1 = some false ∧
    ∃ m, 0 ≤ m ∧ (fun _ => false : Nat → Bool) m = false ∧ (10 : ℚ) ≠ 0 ∧
      (fun _ => (20 : ℚ)) m > 10 := by
  have hrun : wait_task_complete (fun _ => false) (fun _ => (20 : ℚ)) 10 0 1 =
      some false := by
    norm_num [wait_task_complete]
  exact ⟨hrun,
    C7_timeout_requires_strict_exceedance (fun _ => false) (fun _ => (20 : ℚ)) 10 0 1 hrun⟩

/-! ## C4 — single-use result cleanup -/

theorem task_status_after_delete (st : MixinState) (env : Env) (ttl : Nat)
    (task_id : String) (hgone : env.rqUpdate1 = RqUpdate.noSuchJob) :
    (task_status (delete_task st task_id) env ttl task_id).1 =
      .error .taskNotFound := by
  simp only [task_status, _get_task_from_rq_direct, _get_task_from_rq_direct._rq_direct_core,
    task_status.task_status_afterRq, _get_task_from_redis, delete_task, setKey_same, hgone,
    ite_self]
  simp

/-- C4: when `single_use_results` is enabled, a successful result fetch
schedules `delete_task(task_id)` after `result_removal_delay` seconds (both
in the gRPC `with_single_use_cleanup` helper and in the HTTP
`prepare_response` tail); once the delay has elapsed and the deletion has
fired, a `TaskStatus(task_id)` call fails with `TaskNotFound` (the RQ probe
reports the deleted job gone and the durable projection is erased).  When
`single_use_results` is disabled, no deletion is scheduled. -/
theorem C4_single_use_cleanup (st : MixinState) (settings : CleanupSettings)
    (env : Env) (task_id : String) (now : ℚ) (ttl : Nat)
    (hgone : env.rqUpdate1 = RqUpdate.noSuchJob)
    (hnow : settings.result_removal_delay ≤ now) :
    (settings.single_use_results = true →
      with_single_use_cleanup settings task_id =
        some { delay := settings.result_removal_delay, task_id := task_id } ∧
      (task_status (run_scheduled st (with_single_use_cleanup settings task_id) now)
          env ttl task_id).1 = .error .taskNotFound) ∧
    (settings.single_use_results = false →
      with_single_use_cleanup settings task_id = none) ∧
    prepare_response_cleanup settings task_id = with_single_use_cleanup settings task_id := by
  refine ⟨?_, ?_, ?_⟩
  · intro hs
    have hsched : with_single_use_cleanup settings task_id =
        some { delay := settings.result_removal_delay, task_id := task_id } := by
      simp [with_single_use_cleanup, hs]
    refine ⟨hsched, ?_⟩
    rw [hsched]
    simp only [run_scheduled, hnow, if_true]
    exact task_status_after_delete st env ttl task_id hgone
  · intro hs
    simp [with_single_use_cleanup, hs]
  · by_cases hs : settings.single_use_results <;>
      simp [with_single_use_cleanup, prepare_response_cleanup, hs]

/-- C4 witness: the cleanup evaluated with `single_use_results = true`,
`result_removal_delay = 1`, firing at `now = 2` on a state that holds the
task, and the disabled configuration scheduling nothing. -/
theorem C4_single_use_cleanup_witness :
    (({ single_use_results := true, result_removal_delay := 1 } : CleanupSettings).single_use_results = true →
      with_single_use_cleanup { single_use_results := true, result_removal_delay := 1 } "t4" =
        some { delay := 1, task_id := "t4" } ∧
      (task_status
          (run_scheduled
            (_store_task_in_redis emptyMixin
              { task_id := "t4", task_type := "convert", task_status := TaskStatus.success,
                processing_meta := zeroMeta, error_message := none } 100)
            (with_single_use_cleanup { single_use_results := true, result_removal_delay := 1 } "t4")
            2)
          { rqUpdate1 := RqUpdate.noSuchJob, rqUpdate2 := RqUpdate.noop,
            redisReadError := false, parentStatus := none } 100 "t4").1 =
        .error .taskNotFound) ∧
    (({ single_use_results := true, result_removal_delay := 1 } : CleanupSettings).single_use_results = false →
      with_single_use_cleanup { single_use_results := true, result_removal_delay := 1 } "t4" = none) ∧
    prepare_response_cleanup { single_use_results := true, result_removal_delay := 1 } "t4" =
      with_single_use_cleanup { single_use_results := true, result_removal_delay := 1 } "t4" :=
  C4_single_use_cleanup
    (_store_task_in_redis emptyMixin
      { task_id := "t4", task_type := "convert", task_status := TaskStatus.success,
        processing_meta := zeroMeta, error_message := none } 100)
    { single_use_results := true, result_removal_delay := 1 }
    { rqUpdate1 := RqUpdate.noSuchJob, rqUpdate2 := RqUpdate.noop,
      redisReadError := false, parentStatus := none }
    "t4" 2 100 rfl (by norm_num)

/-! ## C8 — transient infrastructure errors are not retried -/

/-- The durable projection payload of a successful task `t8`. -/
def c8Data : TaskData :=
  { task_id := "t8", task_type := "convert", task_status := "success",
    processing_meta := zeroMeta, error_message := none }

/-- A state whose only record of `t8` is the durable Redis projection. -/
def c8State : MixinState :=
  { tasks := fun _ => none
    task_result_keys := fun _ => none
    redis_meta := fun k => if k = metadataKey "t8" then some (c8Data, 14400) else none
    redis_result_keys := fun _ => none }

/-- The task decoded from `c8Data`. -/
def c8Task : Task :=
  { task_id := "t8", task_type := "convert", task_status := TaskStatus.success,
    processing_meta := zeroMeta, error_message := none }

/-- C8 counterexample: with the task recorded only in the durable projection,
a status query whose queue probe raises transiently and whose projection
read also raises transiently returns `TaskNotFound`, while the identical
query without the projection-read error returns the task — a single
transient error changes the answer, and no retry intervenes. -/
theorem C8_counterexample :
    (task_status c8State
        { rqUpdate1 := RqUpdate.failure, rqUpdate2 := RqUpdate.noop,
          redisReadError := true, parentStatus := none } 14400 "t8").1 =
      .error .taskNotFound ∧
    (task_status c8State
        { rqUpdate1 := RqUpdate.failure, rqUpdate2 := RqUpdate.noop,
          redisReadError := false, parentStatus := none } 14400 "t8").1 =
      .ok c8Task ∧
    (Except.error OrchError.taskNotFound : Except OrchError Task) ≠ .ok c8Task := by
  refine ⟨rfl, rfl, fun h => by cases h⟩

/-- C8 (amended): transient infrastructure errors during a status query are
not retried.  A transient queue-probe error together with a transient
projection-read error makes the query fall back, in a single attempt, to the
parent in-memory lookup: it returns the parent's task when one exists and
`TaskNotFound` otherwise; no `UpstreamUnavailable`-style error is surfaced,
and (per the counterexample) a single transient error can change the
answer. -/
theorem C8_no_retry_fallback (st : MixinState) (env : Env) (ttl : Nat)
    (task_id : String) (hrq : env.rqUpdate1 = RqUpdate.failure)
    (hredis : env.redisReadError = true)
    (hcache : ∀ t, st.tasks task_id = some t → t.is_completed = false) :
    (task_status st env ttl task_id).1 =
      match env.parentStatus with
      | some p => .ok p
      | none => .error .taskNotFound := by
  cases hmem : st.tasks task_id with
  | none =>
    simp only [task_status, _get_task_from_rq_direct, hmem,
      _get_task_from_rq_direct._rq_direct_core, hrq,
      task_status.task_status_afterRq, _get_task_from_redis, hredis, if_true]
    cases env.parentStatus <;> rfl
  | some t =>
    have hterm := hcache t hmem
    simp only [task_status, _get_task_from_rq_direct, hmem, hterm,
      Bool.false_eq_true, if_false,
      _get_task_from_rq_direct._rq_direct_core, hrq,
      task_status.task_status_afterRq, _get_task_from_redis, hredis, if_true]
    cases env.parentStatus <;> rfl

/-- C8 witness: the amended fallback behaviour evaluated on the
counterexample state with an absent parent record. -/
theorem C8_no_retry_fallback_witness :
    (task_status c8State
        { rqUpdate1 := RqUpdate.failure, rqUpdate2 := RqUpdate.noop,
          redisReadError := true, parentStatus := none } 14400 "t8").1 =
      .error .taskNotFound :=
  C8_no_retry_fallback c8State
    { rqUpdate1 := RqUpdate.failure, rqUpdate2 := RqUpdate.noop,
      redisReadError := true, parentStatus := none } 14400 "t8" rfl rfl
    (fun t h => by simp [c8State] at h)

/-! ## C2 — cached terminal status is authoritative -/

theorem cached_terminal_status (st : MixinState) (env : Env) (ttl : Nat)
    (task_id : String) (t : Task) (hc : st.tasks task_id = some t)
    (hterm : t.is_completed = true) :
    (task_status st env ttl task_id).1 = .ok t ∧
    ∀ k, (task_status st env ttl task_id).2.tasks k = st.tasks k := by
  constructor
  · simp only [task_status, _get_task_from_rq_direct, hc, hterm, if_true]
  · intro k
    simp only [task_status, _get_task_from_rq_direct, hc, hterm, if_true,
      _store_task_in_redis]
    by_cases hk : k = task_id
    · subst hk
      simp [setKey_same, hc]
    · simp [setKey, hk]

/-- C2: when the in-memory cached Task is already terminal, a status query
returns it unchanged — the RQ probe short-circuits without consulting the
queue, the in-memory map is unchanged, and a subsequent status query (under
any queue behaviour) again returns the same terminal task, so no successful
status query ever observes a non-terminal status once a terminal one is
cached. -/
theorem C2_cached_terminal_authoritative (st : MixinState) (env env₂ : Env)
    (ttl ttl₂ : Nat) (task_id : String) (t : Task)
    (hc : st.tasks task_id = some t) (hterm : t.is_completed = true) :
    (task_status st env ttl task_id).1 = .ok t ∧
    (∀ k, (task_status st env ttl task_id).2.tasks k = st.tasks k) ∧
    (task_status (task_status st env ttl task_id).2 env₂ ttl₂ task_id).1 = .ok t := by
  obtain ⟨h1, h2⟩ := cached_terminal_status st env ttl task_id t hc hterm
  refine ⟨h1, h2, ?_⟩
  have hc₂ : (task_status st env ttl task_id).2.tasks task_id = some t := by
    rw [h2 task_id]; exact hc
  exact (cached_terminal_status _ env₂ ttl₂ task_id t hc₂ hterm).1

/-- A cached terminal (watchdog-published failure) task. -/
def c2Task : Task :=
  { task_id := "t2", task_type := "convert", task_status := TaskStatus.failure,
    processing_meta := zeroMeta, error_message := some "watchdog failure" }

/-- A state caching `c2Task` in memory. -/
def c2State : MixinState :=
  { tasks := fun k => if k = "t2" then some c2Task else none
    task_result_keys := fun _ => none
    redis_meta := fun _ => none
    redis_result_keys := fun _ => none }

/-- A stale `started` snapshot the queue could try to hand back. -/
def c2StaleTask : Task :=
  { task_id := "t2", task_type := "convert", task_status := TaskStatus.started,
    processing_meta := zeroMeta, error_message := none }

/-- The queue behaviour offering the stale snapshot. -/
def c2Env : Env :=
  { rqUpdate1 := RqUpdate.write c2StaleTask, rqUpdate2 := RqUpdate.noop,
    redisReadError := false, parentStatus := none }

/-- C2 witness: the theorem evaluated on a cached watchdog failure, with the
queue offering a stale `started` task that must not be adopted. -/
theorem C2_cached_terminal_witness :
    c2State.tasks "t2" = some c2Task ∧ c2Task.is_completed = true ∧
    (task_status c2State c2Env 14400 "t2").1 = .ok c2Task := by
  refine ⟨rfl, by decide, ?_⟩
  exact (C2_cached_terminal_authoritative c2State c2Env c2Env 14400 14400 "t2" c2Task
    rfl (by decide)).1

/-! ## C1 — orphan reclassification message -/

/-- The durable projection payload of a still-pending task `t1`. -/
def c1Data : TaskData :=
  { task_id := "t1", task_type := "convert", task_status := "pending",
    processing_meta := zeroMeta, error_message := none }

/-- The failing input of C1: `t1` is recorded as `pending` in the durable
projection while the RQ job is definitively gone. -/
def c1State : MixinState :=
  { tasks := fun _ => none
    task_result_keys := fun _ => none
    redis_meta := fun k => if k = metadataKey "t1" then some (c1Data, 14400) else none
    redis_result_keys := fun _ => none }

/-- The external-world behaviour at the failing input: the RQ probe raises
`NoSuchJobError`. -/
def c1Env : Env :=
  { rqUpdate1 := RqUpdate.noSuchJob, rqUpdate2 := RqUpdate.noop,
    redisReadError := false, parentStatus := none }

/-- The task the code actually returns at the failing input. -/
def c1FailedTask : Task :=
  { task_id := "t1", task_type := "convert", task_status := TaskStatus.failure,
    processing_meta := zeroMeta,
    error_message := some ("Task orphaned: RQ job expired while status was " ++
      "TaskStatus.FAILURE. Likely caused by worker restart or Redis eviction.") }

/-- C1: evaluating `task_status` at the failing input.  The reconciliation
does return a `failure` task, write it through to the durable projection and
drop the in-memory tracking — but because `set_status(FAILURE)` runs before
the error message is formatted, the message interpolates the new `FAILURE`
status instead of the old non-terminal `pending` status that the claim (and
the adjacent log line) describe. -/
theorem C1_orphan_message_uses_new_status :
    (task_status c1State c1Env 14400 "t1").1 = .ok c1FailedTask ∧
    (task_status c1State c1Env 14400 "t1").2.tasks "t1" = none ∧
    (task_status c1State c1Env 14400 "t1").2.task_result_keys "t1" = none ∧
    (task_status c1State c1Env 14400 "t1").2.redis_meta (metadataKey "t1") =
      some ({ task_id := "t1", task_type := "convert", task_status := "failure",
              processing_meta := zeroMeta,
              error_message := c1FailedTask.error_message }, 14400) ∧
    c1FailedTask.error_message ≠
      some ("Task orphaned: RQ job expired while status was " ++
        "TaskStatus.PENDING. Likely caused by worker restart or Redis eviction.") := by
  refine ⟨rfl, rfl, rfl, rfl, by decide⟩

/-! ## C10 — frame property of the RQ probe -/

theorem restoreEntry_restore_some (m : String → Option Task) (task_id : String)
    (t : Task) : restoreEntry m task_id (some t) task_id = some t := by
  simp [restoreEntry, setKey]

theorem restoreEntry_other (m : String → Option Task) (task_id : String)
    (orig : Option Task) (k : String) (hk : k ≠ task_id) :
    restoreEntry m task_id orig k = m k := by
  unfold restoreEntry
  cases orig with
  | some t => simp [setKey, hk]
  | none =>
    cases m task_id with
    | none => rfl
    | some cur =>
      by_cases hcur : cur = tempTask task_id <;> simp [hcur, setKey, hk]

/-- The task adopted from RQ in the C10 counterexample. -/
def c10Adopted : Task :=
  { task_id := "t10", task_type := "convert", task_status := TaskStatus.success,
    processing_meta := zeroMeta, error_message := none }

/-- C10 counterexample: with no pre-existing entry for `t10`, a probe whose
parent update adopts a finished task from RQ leaves that adopted task in
`self.tasks` on exit — the `finally` block only deletes the entry when it
still equals the pending placeholder, so the pre-call binding (absent) is
not restored. -/
theorem C10_counterexample :
    emptyMixin.tasks "t10" = none ∧
    (_get_task_from_rq_direct emptyMixin (RqUpdate.write c10Adopted) 100 "t10").1 =
      .task c10Adopted ∧
    (_get_task_from_rq_direct emptyMixin (RqUpdate.write c10Adopted) 100 "t10").2.tasks
      "t10" = some c10Adopted ∧
    (some c10Adopted : Option Task) ≠ none := by
  refine ⟨rfl, rfl, rfl, by simp⟩

/-- C10 (amended): on exit from `_get_task_from_rq_direct`, the map entry
for `task_id` is restored to its pre-call binding whenever a cached Task
existed; when no Task was cached, the entry is absent on exit unless the
parent update adopted a task from the queue, in which case that adopted task
(never the pending placeholder) may remain; entries of every other task id
are untouched. -/
theorem C10_probe_entry_frame (st : MixinState) (upd : RqUpdate) (ttl : Nat)
    (task_id : String) :
    (∀ t, st.tasks task_id = some t →
      (_get_task_from_rq_direct st upd ttl task_id).2.tasks task_id = some t) ∧
    (st.tasks task_id = none →
      (_get_task_from_rq_direct st upd ttl task_id).2.tasks task_id = none ∨
      ∃ u, upd = RqUpdate.write u ∧ u ≠ tempTask task_id ∧
        (_get_task_from_rq_direct st upd ttl task_id).2.tasks task_id = some u) ∧
    (∀ k, k ≠ task_id →
      (_get_task_from_rq_direct st upd ttl task_id).2.tasks k = st.tasks k) := by
  refine ⟨?_, ?_, ?_⟩
  · intro t hmem
    rw [_get_task_from_rq_direct, hmem]
    by_cases hterm : t.is_completed
    · simp [hterm, hmem]
    · simp only [hterm, Bool.false_eq_true, if_false,
        _get_task_from_rq_direct._rq_direct_core, hmem]
      cases upd with
      | noSuchJob => exact restoreEntry_restore_some _ task_id t
      | failure => exact restoreEntry_restore_some _ task_id t
      | noop => exact restoreEntry_restore_some _ task_id t
      | write u =>
        by_cases hp : u.task_status = TaskStatus.pending
        · simp [hp, restoreEntry_restore_some]
        · cases hrk : st.task_result_keys task_id <;>
            simp [hrk, hp, restoreEntry_restore_some]
  · intro hmem
    rw [_get_task_from_rq_direct, hmem]
    simp only [_get_task_from_rq_direct._rq_direct_core, hmem]
    cases upd with
    | noSuchJob => left; simp [restoreEntry, setKey]
    | failure => left; simp [restoreEntry, setKey]
    | noop => left; simp [restoreEntry, setKey]
    | write u =>
      by_cases htmp : u = tempTask task_id
      · left
        subst htmp
        simp [tempTask, restoreEntry, setKey]
      · right
        refine ⟨u, rfl, htmp, ?_⟩
        by_cases hp : u.task_status = TaskStatus.pending
        · simp [hp, restoreEntry, setKey, htmp]
        · cases hrk : st.task_result_keys task_id <;>
            simp [hrk, hp, restoreEntry, setKey, htmp]
  · intro k hk
    rw [_get_task_from_rq_direct]
    cases hmem : st.tasks task_id with
    | some t =>
      by_cases hterm : t.is_completed
      · simp [hterm]
      · simp only [hterm, Bool.false_eq_true, if_false,
          _get_task_from_rq_direct._rq_direct_core]
        cases upd with
        | noSuchJob => simp [restoreEntry_other _ _ _ _ hk, setKey, hk]
        | failure => simp [restoreEntry_other _ _ _ _ hk, setKey, hk]
        | noop => simp [restoreEntry_other _ _ _ _ hk, setKey, hk]
        | write u =>
          by_cases hp : u.task_status = TaskStatus.pending
          · simp [hp, restoreEntry_other _ _ _ _ hk, setKey, hk]
          · cases hrk : st.task_result_keys task_id <;>
              simp [hrk, hp, restoreEntry_other _ _ _ _ hk, setKey, hk]
    | none =>
      simp only [_get_task_from_rq_direct._rq_direct_core]
      cases upd with
      | noSuchJob => simp [restoreEntry_other _ _ _ _ hk, setKey, hk]
      | failure => simp [restoreEntry_other _ _ _ _ hk, setKey, hk]
      | noop => simp [restoreEntry_other _ _ _ _ hk, setKey, hk]
      | write u =>
        by_cases hp : u.task_status = TaskStatus.pending
        · simp [hp, restoreEntry_other _ _ _ _ hk, setKey, hk]
        · cases hrk : st.task_result_keys task_id <;>
            simp [hrk, hp, restoreEntry_other _ _ _ _ hk, setKey, hk]

/-- C10 witness: the frame theorem evaluated on the cached-task case (the
watchdog-failure state of C2) and on the adoption case of the
counterexample. -/
theorem C10_probe_entry_frame_witness :
    (c2State.tasks "t2" = some c2Task ∧
      (_get_task_from_rq_direct c2State RqUpdate.noSuchJob 100 "t2").2.tasks "t2" =
        some c2Task) ∧
    (emptyMixin.tasks "t10" = none ∧
      ((_get_task_from_rq_direct emptyMixin (RqUpdate.write c10Adopted) 100
          "t10").2.tasks "t10" = none ∨
        ∃ u, RqUpdate.write c10Adopted = RqUpdate.write u ∧ u ≠ tempTask "t10" ∧
          (_get_task_from_rq_direct emptyMixin (RqUpdate.write c10Adopted) 100
            "t10").2.tasks "t10" = some u)) := by
  constructor
  · exact ⟨rfl, (C10_probe_entry_frame c2State RqUpdate.noSuchJob 100 "t2").1 c2Task rfl⟩
  · exact ⟨rfl,
      (C10_probe_entry_frame emptyMixin (RqUpdate.write c10Adopted) 100 "t10").2.1 rfl⟩

end DoclingServe
